import Mathlib

/-!
Verification of the metric-derivation engine of `src/app.py`
(`calculate_analytics`, lines 24-55, and the win-probability formula of
lines 160-161) against its natural-language specification.

The table is embedded shallowly: a cell value is either a number (anything
`pd.to_numeric` coerces to a number, numeric strings included) or
non-numeric text (which `to_numeric(errors='coerce')` turns into NaN);
a row is an association list from column name to cell value; a data frame
is a list of column names plus a list of rows.  Real arithmetic is over ℚ
(the numerals of the source are exact decimal fractions).  Accessing a
column absent from the frame raises `KeyError` in pandas; the embedding
returns `none` there.  pandas column assignment mutates the caller's frame
in place, so the frame in the returned pair is the input frame's final
(mutated) state.
-/

namespace RPL

/-- A cell of the raw table: a number, or non-numeric text. -/
inductive Value where
  | num (q : ℚ)
  | str (s : String)
deriving DecidableEq, Repr

/-- A row: association list from column name to cell value.  A column of
the frame with no value in this row simply has no entry. -/
abbrev Row := List (String × Value)

/-- Look up the cell of column `c` in row `r` (first entry wins). -/
def getCell : Row → String → Option Value
  | [], _ => none
  | (c', v) :: rest, c => if c' = c then some v else getCell rest c

/-- Set column `c` of row `r` to `v`: replace the existing entry, or append
a new one (pandas column assignment, restricted to one row). -/
def setCell : Row → String → Value → Row
  | [], c, v => [(c, v)]
  | (c', v') :: rest, c, v =>
      if c' = c then (c', v) :: rest else (c', v') :: setCell rest c v

/-- Numeric reading of a cell after the coercion pass of lines 32-34: a
numeric cell is its number; anything else (absent, or non-numeric text,
both NaN after `to_numeric`) was filled with 0 by `fillna(0)`. -/
def numOf : Option Value → ℚ
  | some (.num q) => q
  | _ => 0

/-- Numeric view of column `c` of row `r`. -/
def getNum (r : Row) (c : String) : ℚ := numOf (getCell r c)

/-- A data frame: column names plus rows. -/
structure DataFrame where
  columns : List String
  rows : List Row
deriving DecidableEq, Repr

/-- The fourteen columns coerced to numeric by lines 29-31 of app.py. -/
def numericCols : List String :=
  ["pass_accuracy", "dribble_success", "interceptions", "positioning_rating",
   "sprint_speed", "stamina", "composure", "big_game_impact", "market_value",
   "age", "contract_end_year", "mins_played", "goals", "assists"]

/-- `pd.to_numeric(x, errors='coerce').fillna(0)` on one cell: numbers are
kept, everything else becomes NaN and is then filled with 0. -/
def coerceCell (v : Option Value) : Value :=
  match v with
  | some (.num q) => .num q
  | _ => .num 0

/-- The loop of lines 32-34: every numeric column present in the frame has
each of its cells coerced; absent columns are skipped, not created. -/
def coerceRow (columns : List String) (r : Row) : Row :=
  numericCols.foldl
    (fun r c => if c ∈ columns then setCell r c (coerceCell (getCell r c)) else r) r

/-- Line 37: `df['Tech_Score'] = df['pass_accuracy']*0.6 + df['dribble_success']*0.4`. -/
def setTech (r : Row) : Row :=
  setCell r "Tech_Score"
    (.num (getNum r "pass_accuracy" * 0.6 + getNum r "dribble_success" * 0.4))

/-- Line 38: `df['Tact_Score'] = (df['interceptions']*5) + (df['positioning_rating']*0.5)`. -/
def setTact (r : Row) : Row :=
  setCell r "Tact_Score"
    (.num (getNum r "interceptions" * 5 + getNum r "positioning_rating" * 0.5))

/-- Line 39: `df['Phys_Score'] = (df['sprint_speed']*2) + (df['stamina']*0.2)`. -/
def setPhys (r : Row) : Row :=
  setCell r "Phys_Score"
    (.num (getNum r "sprint_speed" * 2 + getNum r "stamina" * 0.2))

/-- Line 40: `df['Ment_Score'] = (df['composure']*0.7) + (df['big_game_impact']*0.3)`. -/
def setMent (r : Row) : Row :=
  setCell r "Ment_Score"
    (.num (getNum r "composure" * 0.7 + getNum r "big_game_impact" * 0.3))

/-- The `weights` dict of line 25. -/
def weights (p : String) : ℚ :=
  if p = "Technical" then 0.35
  else if p = "Tactical" then 0.25
  else if p = "Physical" then 0.25
  else if p = "Mental" then 0.15
  else 0

/-- Lines 41-42: `df['TPI'] = df['Tech_Score']*w_Tech + ... + df['Ment_Score']*w_Ment`. -/
def setTPI (r : Row) : Row :=
  setCell r "TPI"
    (.num (getNum r "Tech_Score" * weights "Technical" +
           getNum r "Tact_Score" * weights "Tactical" +
           getNum r "Phys_Score" * weights "Physical" +
           getNum r "Ment_Score" * weights "Mental"))

/-- `Series.clip(lo, hi)`: values below `lo` become `lo`, above `hi` become `hi`. -/
def clip (x lo hi : ℚ) : ℚ := min (max x lo) hi

/-- Line 45: `df['Transfer_Prob'] = (((df['TPI']*0.6) + (35 - df['age'])*2)/100).clip(0, 0.95)`. -/
def setTransferProb (r : Row) : Row :=
  setCell r "Transfer_Prob"
    (.num (clip ((getNum r "TPI" * 0.6 + (35 - getNum r "age") * 2) / 100) 0 0.95))

/-- `current_year` of line 26. -/
def current_year : ℚ := 2026

/-- Line 46: `df['Years_Left'] = df['contract_end_year'] - current_year`. -/
def setYearsLeft (r : Row) : Row :=
  setCell r "Years_Left" (.num (getNum r "contract_end_year" - current_year))

/-- Lines 32-46 applied to one row (all the column assignments are
element-wise, so the frame-level pipeline is this function mapped over the
rows). -/
def enrichRow (columns : List String) (r : Row) : Row :=
  setYearsLeft (setTransferProb (setTPI (setMent (setPhys (setTact (setTech
    (coerceRow columns r)))))))

/-- The columns read unconditionally by lines 37-46; if any is absent from
the frame, pandas raises `KeyError` there. -/
def requiredCols : List String :=
  ["pass_accuracy", "dribble_success", "interceptions", "positioning_rating",
   "sprint_speed", "stamina", "composure", "big_game_impact", "age",
   "contract_end_year"]

/-- The seven columns written by lines 37-46, in assignment order. -/
def derivedCols : List String :=
  ["Tech_Score", "Tact_Score", "Phys_Score", "Ment_Score", "TPI",
   "Transfer_Prob", "Years_Left"]

/-- Column-list effect of the assignments of lines 37-46: each written
column is appended to the frame's column list unless already present. -/
def addDerivedCols (columns : List String) : List String :=
  derivedCols.foldl (fun cs c => if c ∈ cs then cs else cs ++ [c]) columns

/-- `df[c].mean()`: NaN on a frame with no rows, otherwise the arithmetic
mean of the column's numeric view (every use in the source is on a derived
column, whose cells are all numeric). -/
def colMean (df : DataFrame) (c : String) : Option ℚ :=
  if df.rows = [] then none
  else some ((df.rows.map (fun r => getNum r c)).sum / (df.rows.length : ℚ))

/-- The `team_avg` dict of lines 48-54, built from an enriched frame. -/
def teamAvgOf (df : DataFrame) : List (String × Option ℚ) :=
  [("Technical", colMean df "Tech_Score"),
   ("Tactical", colMean df "Tact_Score"),
   ("Physical", colMean df "Phys_Score"),
   ("Mental", colMean df "Ment_Score"),
   ("TPI", colMean df "TPI")]

/-- The five columns read by the `team_avg` block (lines 48-54). -/
def pillarCols : List String :=
  ["Tech_Score", "Tact_Score", "Phys_Score", "Ment_Score", "TPI"]

/-- The spec's `computeTeamAverage` as the code implements it (lines
48-54) applied to an arbitrary frame: `KeyError` (`none`) if a pillar
column is absent, otherwise the five column means. -/
def computeTeamAverage (df : DataFrame) : Option (List (String × Option ℚ)) :=
  if ∀ c ∈ pillarCols, c ∈ df.columns then some (teamAvgOf df) else none

/-- `calculate_analytics` (lines 24-55).  `none` models the `KeyError`
raised when a column read unconditionally is absent.  On success the
returned frame is the input frame's final state: the column assignments of
lines 34-46 mutate it in place. -/
def calculate_analytics (df : DataFrame) :
    Option (DataFrame × List (String × Option ℚ)) :=
  if ∀ c ∈ requiredCols, c ∈ df.columns then
    some (⟨addDerivedCols df.columns, df.rows.map (enrichRow df.columns)⟩,
          teamAvgOf ⟨addDerivedCols df.columns, df.rows.map (enrichRow df.columns)⟩)
  else none

/-- Lines 160-161: `win_prob = max(5, min(95, (50 + (tpi_diff * 3))))`
with `tpi_diff = a - b`. -/
def win_prob (a b : ℚ) : ℚ := max 5 (min 95 (50 + (a - b) * 3))

/-- The Tech_Score value line 37 computes for a row, as a function of the
raw row (coercion reads numeric cells and zero-fills the rest). -/
def techVal (r : Row) : ℚ :=
  getNum r "pass_accuracy" * 0.6 + getNum r "dribble_success" * 0.4

/-- The Tact_Score value line 38 computes for a row. -/
def tactVal (r : Row) : ℚ :=
  getNum r "interceptions" * 5 + getNum r "positioning_rating" * 0.5

/-- The Phys_Score value line 39 computes for a row. -/
def physVal (r : Row) : ℚ :=
  getNum r "sprint_speed" * 2 + getNum r "stamina" * 0.2

/-- The Ment_Score value line 40 computes for a row. -/
def mentVal (r : Row) : ℚ :=
  getNum r "composure" * 0.7 + getNum r "big_game_impact" * 0.3

/-- The TPI value lines 41-42 compute for a row. -/
def tpiVal (r : Row) : ℚ :=
  techVal r * 0.35 + tactVal r * 0.25 + physVal r * 0.25 + mentVal r * 0.15

/-- The Transfer_Prob value line 45 computes for a row. -/
def tprobVal (r : Row) : ℚ :=
  clip ((tpiVal r * 0.6 + (35 - getNum r "age") * 2) / 100) 0 0.95

/-- The Years_Left value line 46 computes for a row. -/
def ylVal (r : Row) : ℚ := getNum r "contract_end_year" - current_year

/-- Modelled from the spec: the per-column median of the current dataset
(§3's alternative missing-value policy), over the column's present numeric
values; the source contains no median computation, so this definition
exists only to compare the spec's claimed fill values with the code's. -/
def specColumnMedian (df : DataFrame) (c : String) : Option ℚ :=
  match List.insertionSort (fun a b => a ≤ b)
      (df.rows.filterMap (fun r =>
        match getCell r c with
        | some (.num q) => some q
        | _ => none)) with
  | [] => none
  | v :: vs =>
      if (vs.length + 1) % 2 = 1 then (v :: vs).get? (vs.length / 2)
      else
        match (v :: vs).get? ((vs.length + 1) / 2 - 1),
              (v :: vs).get? ((vs.length + 1) / 2) with
        | some a, some b => some ((a + b) / 2)
        | _, _ => none

/-! ### Concrete frames used for witnesses and counterexamples -/

/-- A column list containing every column the engine reads. -/
def exCols : List String :=
  ["player_name", "pass_accuracy", "dribble_success", "interceptions",
   "positioning_rating", "sprint_speed", "stamina", "composure",
   "big_game_impact", "age", "contract_end_year"]

/-- The spec's worked scenario row (§8). -/
def scenarioRow : Row :=
  [("player_name", .str "A"), ("pass_accuracy", .num 80),
   ("dribble_success", .num 60), ("interceptions", .num 4),
   ("positioning_rating", .num 70), ("sprint_speed", .num 30),
   ("stamina", .num 80), ("composure", .num 75), ("big_game_impact", .num 60)]

def scenarioDf : DataFrame := ⟨exCols, [scenarioRow]⟩

def scenarioDfOut : DataFrame :=
  ⟨addDerivedCols scenarioDf.columns, scenarioDf.rows.map (enrichRow scenarioDf.columns)⟩

def scenarioTa : List (String × Option ℚ) := teamAvgOf scenarioDfOut

/-- A 200-year-old with every sub-metric missing. -/
def oldRow : Row := [("player_name", .str "Old"), ("age", .num 200)]

/-- An age-0 player with an extreme pass_accuracy, giving TPI 1050. -/
def youngRow : Row :=
  [("player_name", .str "Young"), ("pass_accuracy", .num 5000), ("age", .num 0)]

def extremeDf : DataFrame := ⟨exCols, [oldRow, youngRow]⟩

def extremeDfOut : DataFrame :=
  ⟨addDerivedCols extremeDf.columns, extremeDf.rows.map (enrichRow extremeDf.columns)⟩

def extremeTa : List (String × Option ℚ) := teamAvgOf extremeDfOut

/-- A row with pass_accuracy present and numeric. -/
def fullRow : Row := [("player_name", .str "A"), ("pass_accuracy", .num 80)]

/-- A row with pass_accuracy absent. -/
def bareRow : Row := [("player_name", .str "B")]

def c3df : DataFrame := ⟨exCols, [fullRow, bareRow]⟩

def c3dfOut : DataFrame :=
  ⟨addDerivedCols c3df.columns, c3df.rows.map (enrichRow c3df.columns)⟩

def c3ta : List (String × Option ℚ) := teamAvgOf c3dfOut

/-- A frame whose pass_accuracy column is entirely absent. -/
def noPassColDf : DataFrame :=
  ⟨["player_name", "dribble_success"],
   [[("player_name", .str "A"), ("dribble_success", .num 60)]]⟩

/-- A row whose pass_accuracy cell is non-numeric text. -/
def textRow : Row := [("player_name", .str "A"), ("pass_accuracy", .str "eighty")]

def textDf : DataFrame := ⟨exCols, [textRow]⟩

def textDfOut : DataFrame :=
  ⟨addDerivedCols textDf.columns, textDf.rows.map (enrichRow textDf.columns)⟩

def textTa : List (String × Option ℚ) := teamAvgOf textDfOut

/-- A row with no player_name entry. -/
def noNameRow : Row := [("pass_accuracy", .num 50)]

def noNameDf : DataFrame := ⟨exCols, [scenarioRow, noNameRow]⟩

def noNameDfOut : DataFrame :=
  ⟨addDerivedCols noNameDf.columns, noNameDf.rows.map (enrichRow noNameDf.columns)⟩

def noNameTa : List (String × Option ℚ) := teamAvgOf noNameDfOut

/-- An enriched-shaped frame with zero rows. -/
def emptyEnrichedDf : DataFrame := ⟨pillarCols, []⟩

/-! ### Association-list lemmas -/

lemma getCell_setCell (r : Row) (c c' : String) (v : Value) :
    getCell (setCell r c' v) c = if c' = c then some v else getCell r c := by
  induction r with
  | nil => simp [setCell, getCell]
  | cons p rest ih =>
    obtain ⟨d, w⟩ := p
    by_cases h1 : d = c' <;> by_cases h2 : c' = c
    · subst h1; subst h2; simp [setCell, getCell]
    · subst h1; simp [setCell, getCell, h2]
    · subst h2; simp [setCell, getCell, h1, ih]
    · by_cases h3 : d = c
      · subst h3; simp [setCell, getCell, h1, h2, ih]
      · simp [setCell, getCell, h1, h2, h3, ih]

lemma getCell_setCell_self (r : Row) (c : String) (v : Value) :
    getCell (setCell r c v) c = some v := by
  simp [getCell_setCell]

lemma getCell_setCell_ne (r : Row) (c c' : String) (v : Value) (h : c' ≠ c) :
    getCell (setCell r c' v) c = getCell r c := by
  simp [getCell_setCell, h]

lemma setCell_eq_self (r : Row) (c : String) (v : Value)
    (h : getCell r c = some v) : setCell r c v = r := by
  induction r with
  | nil => simp [getCell] at h
  | cons p rest ih =>
    obtain ⟨d, w⟩ := p
    by_cases h1 : d = c
    · subst h1
      simp [getCell] at h
      simp [setCell, h]
    · simp [getCell, h1] at h
      simp [setCell, h1, ih h]

/-! ### Coercion-pass lemmas (lines 32-34) -/

lemma numOf_some_num (q : ℚ) : numOf (some (.num q)) = q := rfl

lemma coerceCell_eq_num (x : Option Value) : coerceCell x = .num (numOf x) := by
  rcases x with _ | v
  · rfl
  · cases v <;> rfl

lemma numOf_coerceCell (x : Option Value) :
    numOf (some (coerceCell x)) = numOf x := by
  rcases x with _ | v
  · rfl
  · cases v <;> rfl

lemma coerceCell_coerceCell (x : Option Value) :
    coerceCell (some (coerceCell x)) = coerceCell x := by
  rcases x with _ | v
  · rfl
  · cases v <;> rfl

lemma getCell_coerceFold (columns : List String) (cs : List String) (r : Row)
    (c : String) :
    getCell (cs.foldl
      (fun r c => if c ∈ columns then setCell r c (coerceCell (getCell r c)) else r) r) c =
    if c ∈ cs ∧ c ∈ columns then some (coerceCell (getCell r c)) else getCell r c := by
  induction cs generalizing r with
  | nil => simp
  | cons d ds ih =>
    rw [List.foldl_cons]
    by_cases hd : d ∈ columns
    · rw [if_pos hd, ih]
      by_cases hc : c = d
      · subst hc
        rw [getCell_setCell_self]
        by_cases hds : c ∈ ds
        · rw [if_pos ⟨hds, hd⟩, if_pos ⟨List.mem_cons_self c ds, hd⟩,
              coerceCell_coerceCell]
        · rw [if_neg (fun h => hds h.1), if_pos ⟨List.mem_cons_self c ds, hd⟩]
      · rw [getCell_setCell_ne r c d _ (fun h => hc h.symm)]
        by_cases hds : c ∈ ds ∧ c ∈ columns
        · rw [if_pos hds, if_pos ⟨List.mem_cons_of_mem d hds.1, hds.2⟩]
        · rw [if_neg hds, if_neg (fun h => hds ⟨(List.mem_cons.mp h.1).resolve_left hc, h.2⟩)]
    · rw [if_neg hd, ih]
      by_cases hc : c = d
      · subst hc
        rw [if_neg (fun h => hd h.2), if_neg (fun h => hd h.2)]
      · by_cases hds : c ∈ ds ∧ c ∈ columns
        · rw [if_pos hds, if_pos ⟨List.mem_cons_of_mem d hds.1, hds.2⟩]
        · rw [if_neg hds, if_neg (fun h => hds ⟨(List.mem_cons.mp h.1).resolve_left hc, h.2⟩)]

lemma getCell_coerceRow (columns : List String) (r : Row) (c : String) :
    getCell (coerceRow columns r) c =
    if c ∈ numericCols ∧ c ∈ columns then some (coerceCell (getCell r c))
    else getCell r c :=
  getCell_coerceFold columns numericCols r c

lemma getNum_coerceRow (columns : List String) (r : Row) (c : String) :
    getNum (coerceRow columns r) c = getNum r c := by
  unfold getNum
  rw [getCell_coerceRow]
  by_cases h : c ∈ numericCols ∧ c ∈ columns
  · rw [if_pos h, numOf_coerceCell]
  · rw [if_neg h]

lemma numOf_getCell_coerceRow (columns : List String) (r : Row) (c : String) :
    numOf (getCell (coerceRow columns r) c) = numOf (getCell r c) :=
  getNum_coerceRow columns r c

/-! ### What `enrichRow` stores in each derived column (lines 37-46) -/

lemma getCell_enrichRow_tech (columns : List String) (r : Row) :
    getCell (enrichRow columns r) "Tech_Score" = some (.num (techVal r)) := by
  simp [enrichRow, setYearsLeft, setTransferProb, setTPI, setMent, setPhys,
        setTact, setTech, getCell_setCell, getNum, numOf_coerceCell, numOf_some_num,
        numOf_getCell_coerceRow, techVal]

lemma getCell_enrichRow_tact (columns : List String) (r : Row) :
    getCell (enrichRow columns r) "Tact_Score" = some (.num (tactVal r)) := by
  simp [enrichRow, setYearsLeft, setTransferProb, setTPI, setMent, setPhys,
        setTact, setTech, getCell_setCell, getNum, numOf_coerceCell, numOf_some_num,
        numOf_getCell_coerceRow, tactVal]

lemma getCell_enrichRow_phys (columns : List String) (r : Row) :
    getCell (enrichRow columns r) "Phys_Score" = some (.num (physVal r)) := by
  simp [enrichRow, setYearsLeft, setTransferProb, setTPI, setMent, setPhys,
        setTact, setTech, getCell_setCell, getNum, numOf_coerceCell, numOf_some_num,
        numOf_getCell_coerceRow, physVal]

lemma getCell_enrichRow_ment (columns : List String) (r : Row) :
    getCell (enrichRow columns r) "Ment_Score" = some (.num (mentVal r)) := by
  simp [enrichRow, setYearsLeft, setTransferProb, setTPI, setMent, setPhys,
        setTact, setTech, getCell_setCell, getNum, numOf_coerceCell, numOf_some_num,
        numOf_getCell_coerceRow, mentVal]

lemma getCell_enrichRow_tpi (columns : List String) (r : Row) :
    getCell (enrichRow columns r) "TPI" = some (.num (tpiVal r)) := by
  simp [enrichRow, setYearsLeft, setTransferProb, setTPI, setMent, setPhys,
        setTact, setTech, getCell_setCell, getNum, numOf_coerceCell, numOf_some_num,
        numOf_getCell_coerceRow, tpiVal, techVal, tactVal, physVal, mentVal, weights]

lemma getCell_enrichRow_tprob (columns : List String) (r : Row) :
    getCell (enrichRow columns r) "Transfer_Prob" = some (.num (tprobVal r)) := by
  simp [enrichRow, setYearsLeft, setTransferProb, setTPI, setMent, setPhys,
        setTact, setTech, getCell_setCell, getNum, numOf_coerceCell, numOf_some_num,
        numOf_getCell_coerceRow, tprobVal, tpiVal, techVal, tactVal, physVal,
        mentVal, weights]

lemma getCell_enrichRow_yl (columns : List String) (r : Row) :
    getCell (enrichRow columns r) "Years_Left" = some (.num (ylVal r)) := by
  simp [enrichRow, setYearsLeft, setTransferProb, setTPI, setMent, setPhys,
        setTact, setTech, getCell_setCell, getNum, numOf_coerceCell, numOf_some_num,
        numOf_getCell_coerceRow, ylVal]

/-- Columns other than the seven written ones are left exactly as the
coercion pass left them. -/
lemma getCell_enrichRow_not_derived (columns : List String) (r : Row)
    (c : String) (hc : c ∉ derivedCols) :
    getCell (enrichRow columns r) c = getCell (coerceRow columns r) c := by
  have h1 : ¬("Tech_Score" = c) := fun e => hc (e ▸ (by decide))
  have h2 : ¬("Tact_Score" = c) := fun e => hc (e ▸ (by decide))
  have h3 : ¬("Phys_Score" = c) := fun e => hc (e ▸ (by decide))
  have h4 : ¬("Ment_Score" = c) := fun e => hc (e ▸ (by decide))
  have h5 : ¬("TPI" = c) := fun e => hc (e ▸ (by decide))
  have h6 : ¬("Transfer_Prob" = c) := fun e => hc (e ▸ (by decide))
  have h7 : ¬("Years_Left" = c) := fun e => hc (e ▸ (by decide))
  simp [enrichRow, setYearsLeft, setTransferProb, setTPI, setMent, setPhys,
        setTact, setTech, getCell_setCell, h1, h2, h3, h4, h5, h6, h7]

/-- The numeric view of a non-derived column after enrichment is the
numeric view of the raw cell. -/
lemma getNum_enrichRow_not_derived (columns : List String) (r : Row)
    (c : String) (hc : c ∉ derivedCols) :
    getNum (enrichRow columns r) c = getNum r c := by
  unfold getNum
  rw [getCell_enrichRow_not_derived columns r c hc]
  exact getNum_coerceRow columns r c

/-! ### Column-list lemmas -/

lemma mem_foldl_addCols_of_mem (ds : List String) (cs : List String)
    (c : String) (h : c ∈ cs) :
    c ∈ ds.foldl (fun cs c => if c ∈ cs then cs else cs ++ [c]) cs := by
  induction ds generalizing cs with
  | nil => exact h
  | cons d ds ih =>
    rw [List.foldl_cons]
    by_cases hd : d ∈ cs
    · rw [if_pos hd]; exact ih cs h
    · rw [if_neg hd]; exact ih _ (List.mem_append_left _ h)

lemma mem_foldl_addCols_of_mem_new (ds : List String) (cs : List String)
    (c : String) (h : c ∈ ds) :
    c ∈ ds.foldl (fun cs c => if c ∈ cs then cs else cs ++ [c]) cs := by
  induction ds generalizing cs with
  | nil => cases h
  | cons d ds ih =>
    rw [List.foldl_cons]
    rcases List.mem_cons.mp h with h | h
    · subst h
      by_cases hd : c ∈ cs
      · rw [if_pos hd]; exact mem_foldl_addCols_of_mem ds cs c hd
      · rw [if_neg hd]
        exact mem_foldl_addCols_of_mem ds _ c
          (List.mem_append_right _ (List.mem_singleton_self c))
    · by_cases hd : d ∈ cs
      · rw [if_pos hd]; exact ih cs h
      · rw [if_neg hd]; exact ih _ h

lemma mem_of_mem_foldl_addCols (ds : List String) (cs : List String)
    (c : String)
    (h : c ∈ ds.foldl (fun cs c => if c ∈ cs then cs else cs ++ [c]) cs) :
    c ∈ cs ∨ c ∈ ds := by
  induction ds generalizing cs with
  | nil => exact Or.inl h
  | cons d ds ih =>
    rw [List.foldl_cons] at h
    by_cases hd : d ∈ cs
    · rw [if_pos hd] at h
      rcases ih cs h with h | h
      · exact Or.inl h
      · exact Or.inr (List.mem_cons_of_mem d h)
    · rw [if_neg hd] at h
      rcases ih _ h with h | h
      · rcases List.mem_append.mp h with h | h
        · exact Or.inl h
        · exact Or.inr (List.mem_cons.mpr (Or.inl (List.mem_singleton.mp h)))
      · exact Or.inr (List.mem_cons_of_mem d h)

lemma foldl_addCols_eq_self (ds : List String) (cs : List String)
    (h : ∀ c ∈ ds, c ∈ cs) :
    ds.foldl (fun cs c => if c ∈ cs then cs else cs ++ [c]) cs = cs := by
  induction ds with
  | nil => rfl
  | cons d ds ih =>
    rw [List.foldl_cons, if_pos (h d (List.mem_cons_self d ds))]
    exact ih (fun c hc => h c (List.mem_cons_of_mem d hc))

lemma mem_addDerivedCols_of_mem (cs : List String) (c : String) (h : c ∈ cs) :
    c ∈ addDerivedCols cs :=
  mem_foldl_addCols_of_mem derivedCols cs c h

lemma mem_addDerivedCols_of_derived (cs : List String) (c : String)
    (h : c ∈ derivedCols) : c ∈ addDerivedCols cs :=
  mem_foldl_addCols_of_mem_new derivedCols cs c h

lemma mem_of_mem_addDerivedCols (cs : List String) (c : String)
    (h : c ∈ addDerivedCols cs) : c ∈ cs ∨ c ∈ derivedCols :=
  mem_of_mem_foldl_addCols derivedCols cs c h

lemma addDerivedCols_idem (cs : List String) :
    addDerivedCols (addDerivedCols cs) = addDerivedCols cs :=
  foldl_addCols_eq_self derivedCols (addDerivedCols cs)
    (fun c hc => mem_addDerivedCols_of_derived cs c hc)

/-! ### Idempotence of the pipeline on already-enriched rows -/

lemma foldl_coerce_id (columns : List String) (cs : List String) (r : Row)
    (h : ∀ c ∈ cs, c ∈ columns → setCell r c (coerceCell (getCell r c)) = r) :
    cs.foldl
      (fun r c => if c ∈ columns then setCell r c (coerceCell (getCell r c)) else r) r
      = r := by
  induction cs with
  | nil => rfl
  | cons d ds ih =>
    rw [List.foldl_cons]
    by_cases hd : d ∈ columns
    · rw [if_pos hd, h d (List.mem_cons_self d ds) hd]
      exact ih (fun c hc => h c (List.mem_cons_of_mem d hc))
    · rw [if_neg hd]
      exact ih (fun c hc => h c (List.mem_cons_of_mem d hc))

/-- A numeric column present in the original frame holds, after
enrichment, exactly the coerced (numeric) raw cell. -/
lemma getCell_enrichRow_numeric (columns : List String) (r : Row)
    (c : String) (hnum : c ∈ numericCols) (hcol : c ∈ columns) :
    getCell (enrichRow columns r) c = some (.num (getNum r c)) := by
  have hder : c ∉ derivedCols := fun hd => by
    have : ∀ x ∈ numericCols, x ∉ derivedCols := by decide
    exact this c hnum hd
  rw [getCell_enrichRow_not_derived columns r c hder, getCell_coerceRow,
      if_pos ⟨hnum, hcol⟩, coerceCell_eq_num]
  rfl

/-- Re-running the coercion pass on an enriched row changes nothing: every
numeric column it touches already holds a numeric cell. -/
lemma coerceRow_enrichRow (columns columns' : List String) (r : Row)
    (hmetric : ∀ c ∈ numericCols, c ∈ columns' → c ∈ columns) :
    coerceRow columns' (enrichRow columns r) = enrichRow columns r := by
  unfold coerceRow
  refine foldl_coerce_id columns' numericCols _ (fun c hc hcol => ?_)
  have hget := getCell_enrichRow_numeric columns r c hc (hmetric c hc hcol)
  rw [hget]
  exact setCell_eq_self _ c _ (by rw [hget]; rfl)

/-- Re-running the whole per-row pipeline on an enriched row reproduces it
exactly: the coercion pass is a no-op and every assignment recomputes the
value the column already holds. -/
lemma enrichRow_enrichRow (columns columns' : List String) (r : Row)
    (hmetric : ∀ c ∈ numericCols, c ∈ columns' → c ∈ columns) :
    enrichRow columns' (enrichRow columns r) = enrichRow columns r := by
  have hnd : ∀ c ∈ numericCols, c ∉ derivedCols := by decide
  have hgn : ∀ c ∈ numericCols, getNum (enrichRow columns r) c = getNum r c :=
    fun c hc => getNum_enrichRow_not_derived columns r c (hnd c hc)
  have htech : getNum (enrichRow columns r) "Tech_Score" = techVal r := by
    rw [getNum, getCell_enrichRow_tech, numOf_some_num]
  have htact : getNum (enrichRow columns r) "Tact_Score" = tactVal r := by
    rw [getNum, getCell_enrichRow_tact, numOf_some_num]
  have hphys : getNum (enrichRow columns r) "Phys_Score" = physVal r := by
    rw [getNum, getCell_enrichRow_phys, numOf_some_num]
  have hment : getNum (enrichRow columns r) "Ment_Score" = mentVal r := by
    rw [getNum, getCell_enrichRow_ment, numOf_some_num]
  have htpi : getNum (enrichRow columns r) "TPI" = tpiVal r := by
    rw [getNum, getCell_enrichRow_tpi, numOf_some_num]
  conv_lhs => rw [enrichRow]
  rw [coerceRow_enrichRow columns columns' r hmetric]
  rw [setTech, hgn "pass_accuracy" (by decide), hgn "dribble_success" (by decide),
      setCell_eq_self _ _ _ (by rw [getCell_enrichRow_tech]; rfl)]
  rw [setTact, hgn "interceptions" (by decide), hgn "positioning_rating" (by decide),
      setCell_eq_self _ _ _ (by rw [getCell_enrichRow_tact]; rfl)]
  rw [setPhys, hgn "sprint_speed" (by decide), hgn "stamina" (by decide),
      setCell_eq_self _ _ _ (by rw [getCell_enrichRow_phys]; rfl)]
  rw [setMent, hgn "composure" (by decide), hgn "big_game_impact" (by decide),
      setCell_eq_self _ _ _ (by rw [getCell_enrichRow_ment]; rfl)]
  rw [setTPI, htech, htact, hphys, hment,
      setCell_eq_self _ _ _ (by
        rw [getCell_enrichRow_tpi]
        simp [tpiVal, weights])]
  rw [setTransferProb, htpi, hgn "age" (by decide),
      setCell_eq_self _ _ _ (by rw [getCell_enrichRow_tprob]; rfl)]
  rw [setYearsLeft, hgn "contract_end_year" (by decide),
      setCell_eq_self _ _ _ (by rw [getCell_enrichRow_yl]; rfl)]

/-! ### Destructuring a successful run -/

lemma map_eq_self_of_mem {α : Type} (l : List α) (f : α → α)
    (h : ∀ a ∈ l, f a = a) : l.map f = l := by
  induction l with
  | nil => rfl
  | cons a l ih =>
    rw [List.map_cons, h a (List.mem_cons_self a l),
        ih (fun b hb => h b (List.mem_cons_of_mem a hb))]

lemma calculate_analytics_some (df df' : DataFrame)
    (ta : List (String × Option ℚ))
    (h : calculate_analytics df = some (df', ta)) :
    (∀ c ∈ requiredCols, c ∈ df.columns) ∧
    df'.columns = addDerivedCols df.columns ∧
    df'.rows = df.rows.map (enrichRow df.columns) ∧
    ta = teamAvgOf df' := by
  by_cases hg : ∀ c ∈ requiredCols, c ∈ df.columns
  · rw [calculate_analytics, if_pos hg, Option.some.injEq, Prod.mk.injEq] at h
    obtain ⟨hdf, hta⟩ := h
    refine ⟨hg, ?_, ?_, ?_⟩
    · rw [← hdf]
    · rw [← hdf]
    · rw [← hta, ← hdf]
  · rw [calculate_analytics, if_neg hg] at h
    cases h

/-! ### Claim theorems -/

/-- C1: for every row of a successfully processed frame whose eight
sub-metrics are present and numeric, the engine stores
Tech_Score = 0.6·pass_accuracy + 0.4·dribble_success,
Tact_Score = 5·interceptions + 0.5·positioning_rating,
Phys_Score = 2·sprint_speed + 0.2·stamina,
Ment_Score = 0.7·composure + 0.3·big_game_impact, and
TPI = 0.35·Tech + 0.25·Tact + 0.25·Phys + 0.15·Ment, and the enriched row
appears in the output frame. -/
theorem c1_pillar_and_tpi_formulas (df df' : DataFrame)
    (ta : List (String × Option ℚ))
    (h : calculate_analytics df = some (df', ta))
    (r : Row) (hr : r ∈ df.rows)
    (pa ds ic pr ss st co bg : ℚ)
    (hpa : getCell r "pass_accuracy" = some (.num pa))
    (hds : getCell r "dribble_success" = some (.num ds))
    (hic : getCell r "interceptions" = some (.num ic))
    (hpr : getCell r "positioning_rating" = some (.num pr))
    (hss : getCell r "sprint_speed" = some (.num ss))
    (hst : getCell r "stamina" = some (.num st))
    (hco : getCell r "composure" = some (.num co))
    (hbg : getCell r "big_game_impact" = some (.num bg)) :
    enrichRow df.columns r ∈ df'.rows ∧
    getCell (enrichRow df.columns r) "Tech_Score" =
      some (.num (0.6 * pa + 0.4 * ds)) ∧
    getCell (enrichRow df.columns r) "Tact_Score" =
      some (.num (5 * ic + 0.5 * pr)) ∧
    getCell (enrichRow df.columns r) "Phys_Score" =
      some (.num (2 * ss + 0.2 * st)) ∧
    getCell (enrichRow df.columns r) "Ment_Score" =
      some (.num (0.7 * co + 0.3 * bg)) ∧
    getCell (enrichRow df.columns r) "TPI" =
      some (.num (0.35 * (0.6 * pa + 0.4 * ds) + 0.25 * (5 * ic + 0.5 * pr) +
                  0.25 * (2 * ss + 0.2 * st) + 0.15 * (0.7 * co + 0.3 * bg))) := by
  obtain ⟨hg, hcols, hrows, hta⟩ := calculate_analytics_some df df' ta h
  have epa : getNum r "pass_accuracy" = pa := by rw [getNum, hpa, numOf_some_num]
  have eds : getNum r "dribble_success" = ds := by rw [getNum, hds, numOf_some_num]
  have eic : getNum r "interceptions" = ic := by rw [getNum, hic, numOf_some_num]
  have epr : getNum r "positioning_rating" = pr := by rw [getNum, hpr, numOf_some_num]
  have ess : getNum r "sprint_speed" = ss := by rw [getNum, hss, numOf_some_num]
  have est : getNum r "stamina" = st := by rw [getNum, hst, numOf_some_num]
  have eco : getNum r "composure" = co := by rw [getNum, hco, numOf_some_num]
  have ebg : getNum r "big_game_impact" = bg := by rw [getNum, hbg, numOf_some_num]
  refine ⟨?_, ?_, ?_, ?_, ?_, ?_⟩
  · rw [hrows]; exact List.mem_map_of_mem _ hr
  · rw [getCell_enrichRow_tech, techVal, epa, eds]; norm_num; ring
  · rw [getCell_enrichRow_tact, tactVal, eic, epr]; norm_num; ring
  · rw [getCell_enrichRow_phys, physVal, ess, est]; norm_num; ring
  · rw [getCell_enrichRow_ment, mentVal, eco, ebg]; norm_num; ring
  · rw [getCell_enrichRow_tpi, tpiVal, techVal, tactVal, physVal, mentVal,
        epa, eds, eic, epr, ess, est, eco, ebg]
    norm_num; ring

/-- C1 witness: the spec's scenario row yields pillar scores 72, 55, 76,
70.5 and TPI 68.525. -/
theorem c1_witness :
    enrichRow scenarioDf.columns scenarioRow ∈ scenarioDfOut.rows ∧
    getCell (enrichRow scenarioDf.columns scenarioRow) "Tech_Score" =
      some (.num 72) ∧
    getCell (enrichRow scenarioDf.columns scenarioRow) "Tact_Score" =
      some (.num 55) ∧
    getCell (enrichRow scenarioDf.columns scenarioRow) "Phys_Score" =
      some (.num 76) ∧
    getCell (enrichRow scenarioDf.columns scenarioRow) "Ment_Score" =
      some (.num 70.5) ∧
    getCell (enrichRow scenarioDf.columns scenarioRow) "TPI" =
      some (.num 68.525) := by
  have h := c1_pillar_and_tpi_formulas scenarioDf scenarioDfOut scenarioTa
    (by rw [calculate_analytics, if_pos (by decide)]; rfl)
    scenarioRow (by decide) 80 60 4 70 30 80 75 60
    (by decide) (by decide) (by decide) (by decide)
    (by decide) (by decide) (by decide) (by decide)
  obtain ⟨h0, h1, h2, h3, h4, h5⟩ := h
  refine ⟨h0, ?_, ?_, ?_, ?_, ?_⟩
  · rw [h1]; norm_num
  · rw [h2]; norm_num
  · rw [h3]; norm_num
  · rw [h4]; norm_num
  · rw [h5]; norm_num

/-- C2: for every row of a successfully processed frame, with `tpi` the
stored TPI and `age` the row's numeric age, the engine stores
Transfer_Prob = clip((0.6·TPI + 2·(35 − age)) / 100, 0, 0.95), which
always lies in [0, 0.95]. -/
theorem c2_transfer_prob (df df' : DataFrame) (ta : List (String × Option ℚ))
    (h : calculate_analytics df = some (df', ta))
    (r : Row) (hr : r ∈ df.rows) (tpi age : ℚ)
    (htpi : getCell (enrichRow df.columns r) "TPI" = some (.num tpi))
    (hage : getCell r "age" = some (.num age)) :
    enrichRow df.columns r ∈ df'.rows ∧
    getCell (enrichRow df.columns r) "Transfer_Prob" =
      some (.num (clip ((0.6 * tpi + 2 * (35 - age)) / 100) 0 0.95)) ∧
    0 ≤ clip ((0.6 * tpi + 2 * (35 - age)) / 100) 0 0.95 ∧
    clip ((0.6 * tpi + 2 * (35 - age)) / 100) 0 0.95 ≤ 0.95 := by
  obtain ⟨hg, hcols, hrows, hta⟩ := calculate_analytics_some df df' ta h
  have etpi : tpiVal r = tpi := by
    have := getCell_enrichRow_tpi df.columns r
    rw [htpi, Option.some.injEq, Value.num.injEq] at this
    exact this.symm
  have eage : getNum r "age" = age := by rw [getNum, hage, numOf_some_num]
  have earg : (tpiVal r * 0.6 + (35 - getNum r "age") * 2) / 100 =
      (0.6 * tpi + 2 * (35 - age)) / 100 := by
    rw [etpi, eage]; ring
  refine ⟨?_, ?_, ?_, ?_⟩
  · rw [hrows]; exact List.mem_map_of_mem _ hr
  · rw [getCell_enrichRow_tprob, tprobVal, earg]
  · rw [clip]; exact le_min (le_max_right _ _) (by norm_num)
  · rw [clip]; exact min_le_right _ _

/-- C2 witness: extreme inputs — a 200-year-old with TPI 0 clips to 0, an
age-0 player with TPI 1050 clips to 0.95. -/
theorem c2_witness :
    getCell (enrichRow extremeDf.columns oldRow) "Transfer_Prob" =
      some (.num 0) ∧
    getCell (enrichRow extremeDf.columns youngRow) "Transfer_Prob" =
      some (.num 0.95) := by
  have hrun : calculate_analytics extremeDf = some (extremeDfOut, extremeTa) := by
    rw [calculate_analytics, if_pos (by decide)]; rfl
  have hvold : tpiVal oldRow = 0 := by
    have e1 : getNum oldRow "pass_accuracy" = 0 := rfl
    have e2 : getNum oldRow "dribble_success" = 0 := rfl
    have e3 : getNum oldRow "interceptions" = 0 := rfl
    have e4 : getNum oldRow "positioning_rating" = 0 := rfl
    have e5 : getNum oldRow "sprint_speed" = 0 := rfl
    have e6 : getNum oldRow "stamina" = 0 := rfl
    have e7 : getNum oldRow "composure" = 0 := rfl
    have e8 : getNum oldRow "big_game_impact" = 0 := rfl
    rw [tpiVal, techVal, tactVal, physVal, mentVal, e1, e2, e3, e4, e5, e6, e7, e8]
    norm_num
  have hvyoung : tpiVal youngRow = 1050 := by
    have e1 : getNum youngRow "pass_accuracy" = 5000 := rfl
    have e2 : getNum youngRow "dribble_success" = 0 := rfl
    have e3 : getNum youngRow "interceptions" = 0 := rfl
    have e4 : getNum youngRow "positioning_rating" = 0 := rfl
    have e5 : getNum youngRow "sprint_speed" = 0 := rfl
    have e6 : getNum youngRow "stamina" = 0 := rfl
    have e7 : getNum youngRow "composure" = 0 := rfl
    have e8 : getNum youngRow "big_game_impact" = 0 := rfl
    rw [tpiVal, techVal, tactVal, physVal, mentVal, e1, e2, e3, e4, e5, e6, e7, e8]
    norm_num
  have hold := c2_transfer_prob extremeDf extremeDfOut extremeTa hrun
    oldRow (by decide) 0 200
    (by rw [getCell_enrichRow_tpi, hvold]) (by decide)
  have hyoung := c2_transfer_prob extremeDf extremeDfOut extremeTa hrun
    youngRow (by decide) 1050 0
    (by rw [getCell_enrichRow_tpi, hvyoung]) (by decide)
  constructor
  · rw [hold.2.1]
    norm_num [clip]
  · rw [hyoung.2.1]
    norm_num [clip]

/-- C3 counterexample: a row whose pass_accuracy is absent has it filled
with 0, which is neither the fixed league-average placeholder 50 nor the
dataset's pass_accuracy median 80 — the code has no missing-value policy
at all, it always zero-fills. -/
theorem c3_counterexample :
    calculate_analytics c3df = some (c3dfOut, c3ta) ∧
    getCell bareRow "pass_accuracy" = none ∧
    getCell (enrichRow c3df.columns bareRow) "pass_accuracy" = some (.num 0) ∧
    specColumnMedian c3df "pass_accuracy" = some 80 ∧
    (0 : ℚ) ≠ 50 ∧ (0 : ℚ) ≠ 80 := by
  refine ⟨by rw [calculate_analytics, if_pos (by decide)]; rfl, rfl, ?_, ?_,
    by norm_num, by norm_num⟩
  · rw [getCell_enrichRow_numeric c3df.columns bareRow "pass_accuracy"
        (by decide) (by decide)]
    rfl
  · rfl

/-- C3 amended: a sub-metric value that is absent or non-numeric, in a
recognized numeric column present in the frame, is filled with 0 before the
pillar scores are computed — there is no configurable policy, no
league-average default and no median imputation. -/
theorem c3_zero_fill (df df' : DataFrame) (ta : List (String × Option ℚ))
    (h : calculate_analytics df = some (df', ta))
    (r : Row) (hr : r ∈ df.rows) (c : String)
    (hnum : c ∈ numericCols) (hcol : c ∈ df.columns)
    (hmiss : ∀ q : ℚ, getCell r c ≠ some (.num q)) :
    enrichRow df.columns r ∈ df'.rows ∧
    getCell (enrichRow df.columns r) c = some (.num 0) := by
  obtain ⟨hg, hcols, hrows, hta⟩ := calculate_analytics_some df df' ta h
  refine ⟨by rw [hrows]; exact List.mem_map_of_mem _ hr, ?_⟩
  rw [getCell_enrichRow_numeric df.columns r c hnum hcol]
  have hz : getNum r c = 0 := by
    rw [getNum]
    rcases hval : getCell r c with _ | v
    · rfl
    · cases v with
      | num q => exact absurd hval (hmiss q)
      | str s => rfl
  rw [hz]

/-- C3 witness: the bare row's absent pass_accuracy is zero-filled. -/
theorem c3_witness :
    enrichRow c3df.columns bareRow ∈ c3dfOut.rows ∧
    getCell (enrichRow c3df.columns bareRow) "pass_accuracy" =
      some (.num 0) :=
  c3_zero_fill c3df c3dfOut c3ta
    (by rw [calculate_analytics, if_pos (by decide)]; rfl)
    bareRow (by decide) "pass_accuracy" (by decide) (by decide)
    (by intro q hq; cases hq)

/-- C4 counterexample: a frame with no pass_accuracy column at all makes
the derivation fail (the `KeyError` of line 37, modelled as `none`) even
though it has rows — it does not succeed treating the column as missing. -/
theorem c4_counterexample :
    calculate_analytics noPassColDf = none ∧
    ("pass_accuracy" : String) ∉ noPassColDf.columns ∧
    noPassColDf.rows ≠ [] := by
  refine ⟨?_, by decide, by decide⟩
  rw [calculate_analytics, if_neg (by decide)]

/-- C4 amended: the derivation fails with a `KeyError` whenever any of the
ten unconditionally read columns (the eight sub-metrics, age and
contract_end_year) is entirely absent from the frame; only cell-level
absence inside present columns is treated as missing. -/
theorem c4_missing_column_fails (df : DataFrame) (c : String)
    (hreq : c ∈ requiredCols) (habs : c ∉ df.columns) :
    calculate_analytics df = none := by
  rw [calculate_analytics, if_neg (fun hall => habs (hall c hreq))]

/-- C4 witness: the frame without a pass_accuracy column fails. -/
theorem c4_witness : calculate_analytics noPassColDf = none :=
  c4_missing_column_fails noPassColDf "pass_accuracy" (by decide) (by decide)

/-- C5 counterexample: the frame in the returned pair — the input frame's
state after the call, since pandas column assignment mutates in place — is
not the raw input frame: the call adds columns, so the raw table is
changed. -/
theorem c5_counterexample :
    calculate_analytics scenarioDf = some (scenarioDfOut, scenarioTa) ∧
    scenarioDfOut ≠ scenarioDf := by
  refine ⟨by rw [calculate_analytics, if_pos (by decide)]; rfl, fun he => ?_⟩
  exact absurd (congrArg DataFrame.columns he) (by decide)

/-- C5 amended: the call mutates its input frame (coercing numeric columns
and appending derived ones), but it is deterministic and idempotent:
re-running it on the enriched frame it produced returns exactly that frame
and the same team averages. -/
theorem c5_idempotent (df df' : DataFrame) (ta : List (String × Option ℚ))
    (h : calculate_analytics df = some (df', ta)) :
    calculate_analytics df' = some (df', ta) := by
  obtain ⟨hg, hcols, hrows, hta⟩ := calculate_analytics_some df df' ta h
  have hmetric : ∀ c ∈ numericCols, c ∈ df'.columns → c ∈ df.columns := by
    intro c hc hmem
    rw [hcols] at hmem
    rcases mem_of_mem_addDerivedCols df.columns c hmem with h' | h'
    · exact h'
    · exact absurd h' ((by decide : ∀ x ∈ numericCols, x ∉ derivedCols) c hc)
  have hg' : ∀ c ∈ requiredCols, c ∈ df'.columns := by
    intro c hc
    rw [hcols]
    exact mem_addDerivedCols_of_mem df.columns c (hg c hc)
  have hcolid : addDerivedCols df'.columns = df'.columns := by
    rw [hcols, addDerivedCols_idem]
  have hrowid : df'.rows.map (enrichRow df'.columns) = df'.rows := by
    rw [hrows]
    apply map_eq_self_of_mem
    intro r' hr'
    obtain ⟨r, hr, he⟩ := List.mem_map.mp hr'
    rw [← he]
    exact enrichRow_enrichRow df.columns df'.columns r hmetric
  rw [calculate_analytics, if_pos hg', hcolid, hrowid, hta]

/-- C5 witness: re-running on the scenario frame's enriched output
reproduces it byte for byte. -/
theorem c5_witness :
    calculate_analytics scenarioDfOut = some (scenarioDfOut, scenarioTa) :=
  c5_idempotent scenarioDf scenarioDfOut scenarioTa
    (by rw [calculate_analytics, if_pos (by decide)]; rfl)

/-- C6 counterexample: a non-numeric pass_accuracy cell is not preserved —
the coercion pass overwrites the original value "eighty" with 0, so the
original columns do not keep their original values. -/
theorem c6_counterexample :
    calculate_analytics textDf = some (textDfOut, textTa) ∧
    getCell textRow "pass_accuracy" = some (.str "eighty") ∧
    textDfOut.rows = [enrichRow textDf.columns textRow] ∧
    getCell (enrichRow textDf.columns textRow) "pass_accuracy" =
      some (.num 0) ∧
    some (Value.str "eighty") ≠ some (Value.num 0) := by
  refine ⟨by rw [calculate_analytics, if_pos (by decide)]; rfl, rfl, rfl, ?_,
    by decide⟩
  rw [getCell_enrichRow_numeric textDf.columns textRow "pass_accuracy"
      (by decide) (by decide)]
  rfl

/-- C6 amended: the output keeps the input's row count and order, appends
exactly the seven derived columns Tech_Score, Tact_Score, Phys_Score,
Ment_Score, TPI, Transfer_Prob, Years_Left (Rank_Percentile is never
added), and passes unrecognized columns through unchanged; recognized
numeric columns, however, are coerced in place — absent or non-numeric
cells become 0 — so their original values are not always preserved. -/
theorem c6_output_shape (df df' : DataFrame) (ta : List (String × Option ℚ))
    (h : calculate_analytics df = some (df', ta)) :
    df'.rows = df.rows.map (enrichRow df.columns) ∧
    df'.rows.length = df.rows.length ∧
    df'.columns = addDerivedCols df.columns ∧
    (∀ c ∈ derivedCols, c ∈ df'.columns) ∧
    (("Rank_Percentile" : String) ∈ df'.columns ↔
      ("Rank_Percentile" : String) ∈ df.columns) ∧
    (∀ r ∈ df.rows, ∀ c : String, c ∉ numericCols → c ∉ derivedCols →
      getCell (enrichRow df.columns r) c = getCell r c) := by
  obtain ⟨hg, hcols, hrows, hta⟩ := calculate_analytics_some df df' ta h
  refine ⟨hrows, by rw [hrows, List.length_map], hcols, ?_, ?_, ?_⟩
  · intro c hc
    rw [hcols]
    exact mem_addDerivedCols_of_derived df.columns c hc
  · constructor
    · intro hmem
      rw [hcols] at hmem
      rcases mem_of_mem_addDerivedCols df.columns _ hmem with h' | h'
      · exact h'
      · exact absurd h' (by decide)
    · intro hmem
      rw [hcols]
      exact mem_addDerivedCols_of_mem df.columns _ hmem
  · intro r hr c hcn hcd
    rw [getCell_enrichRow_not_derived df.columns r c hcd, getCell_coerceRow,
        if_neg (fun hb => hcn hb.1)]

/-- C6 witness: the shape facts at the concrete text frame. -/
theorem c6_witness :
    textDfOut.rows = textDf.rows.map (enrichRow textDf.columns) ∧
    textDfOut.rows.length = textDf.rows.length ∧
    textDfOut.columns = addDerivedCols textDf.columns ∧
    (∀ c ∈ derivedCols, c ∈ textDfOut.columns) ∧
    (("Rank_Percentile" : String) ∈ textDfOut.columns ↔
      ("Rank_Percentile" : String) ∈ textDf.columns) ∧
    (∀ r ∈ textDf.rows, ∀ c : String, c ∉ numericCols → c ∉ derivedCols →
      getCell (enrichRow textDf.columns r) c = getCell r c) :=
  c6_output_shape textDf textDfOut textTa
    (by rw [calculate_analytics, if_pos (by decide)]; rfl)

/-- C7 counterexample: a frame containing a row with no player_name is
processed with both rows kept — the nameless row is not excluded, the
output row count stays 2, and the function's return carries no warning
collection of any kind. -/
theorem c7_counterexample :
    calculate_analytics noNameDf = some (noNameDfOut, noNameTa) ∧
    getCell noNameRow "player_name" = none ∧
    noNameDf.rows.length = 2 ∧
    noNameDfOut.rows.length = 2 ∧
    noNameDfOut.rows.length ≠ 1 := by
  exact ⟨by rw [calculate_analytics, if_pos (by decide)]; rfl, rfl, rfl, rfl,
    by decide⟩

/-- C7 amended: a row lacking player_name is retained and enriched like
any other row; the row count is always preserved and no warnings exist. -/
theorem c7_no_dropping (df df' : DataFrame) (ta : List (String × Option ℚ))
    (h : calculate_analytics df = some (df', ta))
    (r : Row) (hr : r ∈ df.rows)
    (hname : getCell r "player_name" = none) :
    enrichRow df.columns r ∈ df'.rows ∧
    df'.rows.length = df.rows.length := by
  obtain ⟨hg, hcols, hrows, hta⟩ := calculate_analytics_some df df' ta h
  exact ⟨by rw [hrows]; exact List.mem_map_of_mem _ hr,
    by rw [hrows, List.length_map]⟩

/-- C7 witness: the nameless row is kept in the concrete frame. -/
theorem c7_witness :
    enrichRow noNameDf.columns noNameRow ∈ noNameDfOut.rows ∧
    noNameDfOut.rows.length = noNameDf.rows.length :=
  c7_no_dropping noNameDf noNameDfOut noNameTa
    (by rw [calculate_analytics, if_pos (by decide)]; rfl)
    noNameRow (by decide) rfl

/-- C8 counterexample: the team-average block on a zero-row enriched frame
returns a five-entry mapping whose averages are all NaN (`none`), not an
empty mapping. -/
theorem c8_counterexample :
    computeTeamAverage emptyEnrichedDf =
      some [("Technical", none), ("Tactical", none), ("Physical", none),
            ("Mental", none), ("TPI", none)] ∧
    computeTeamAverage emptyEnrichedDf ≠
      some ([] : List (String × Option ℚ)) := by
  exact ⟨by decide, by decide⟩

/-- C8 amended: on a frame with the five pillar columns, the team-average
block returns, for an empty table, the five-key mapping with every average
NaN (`none`) — not an empty mapping, and not a crash — and for a non-empty
table the arithmetic mean of each pillar column and of TPI. -/
theorem c8_team_average (df : DataFrame)
    (hcols : ∀ c ∈ pillarCols, c ∈ df.columns) :
    (df.rows = [] → computeTeamAverage df =
      some [("Technical", none), ("Tactical", none), ("Physical", none),
            ("Mental", none), ("TPI", none)]) ∧
    (df.rows ≠ [] → computeTeamAverage df =
      some [("Technical",
              some ((df.rows.map (fun r => getNum r "Tech_Score")).sum /
                (df.rows.length : ℚ))),
            ("Tactical",
              some ((df.rows.map (fun r => getNum r "Tact_Score")).sum /
                (df.rows.length : ℚ))),
            ("Physical",
              some ((df.rows.map (fun r => getNum r "Phys_Score")).sum /
                (df.rows.length : ℚ))),
            ("Mental",
              some ((df.rows.map (fun r => getNum r "Ment_Score")).sum /
                (df.rows.length : ℚ))),
            ("TPI",
              some ((df.rows.map (fun r => getNum r "TPI")).sum /
                (df.rows.length : ℚ)))]) := by
  constructor
  · intro he
    rw [computeTeamAverage, if_pos hcols]
    simp [teamAvgOf, colMean, he]
  · intro hne
    rw [computeTeamAverage, if_pos hcols]
    simp [teamAvgOf, colMean, hne]

/-- C8 witness: the empty enriched frame gives the five-key NaN mapping. -/
theorem c8_witness :
    computeTeamAverage emptyEnrichedDf =
      some [("Technical", none), ("Tactical", none), ("Physical", none),
            ("Mental", none), ("TPI", none)] :=
  (c8_team_average emptyEnrichedDf (by decide)).1 rfl

/-- C9: the match-day win probability is exactly
clip(50 + 3·(A − B), 5, 95) and always lies in [5, 95]. -/
theorem c9_win_probability (a b : ℚ) :
    win_prob a b = clip (50 + 3 * (a - b)) 5 95 ∧
    5 ≤ win_prob a b ∧ win_prob a b ≤ 95 := by
  refine ⟨?_, ?_, ?_⟩
  · rw [win_prob, clip, show (a - b) * 3 = 3 * (a - b) from mul_comm _ _,
        max_min_distrib_left, show max (5 : ℚ) 95 = 95 from by norm_num,
        max_comm (5 : ℚ) _, min_comm]
  · rw [win_prob]
    exact le_max_left _ _
  · rw [win_prob]
    exact max_le (by norm_num) (min_le_left _ _)

/-- C9 witness: a concrete instance, average TPIs 60 and 50. -/
theorem c9_witness :
    win_prob 60 50 = clip (50 + 3 * (60 - 50)) 5 95 ∧
    5 ≤ win_prob 60 50 ∧ win_prob 60 50 ≤ 95 :=
  c9_win_probability 60 50

lemma getNum_enrichRow_tpi (columns : List String) (r : Row) :
    getNum (enrichRow columns r) "TPI" = tpiVal r := by
  rw [getNum, getCell_enrichRow_tpi, numOf_some_num]

lemma getNum_enrichRow_tech (columns : List String) (r : Row) :
    getNum (enrichRow columns r) "Tech_Score" = techVal r := by
  rw [getNum, getCell_enrichRow_tech, numOf_some_num]

lemma getNum_enrichRow_tact (columns : List String) (r : Row) :
    getNum (enrichRow columns r) "Tact_Score" = tactVal r := by
  rw [getNum, getCell_enrichRow_tact, numOf_some_num]

lemma getNum_enrichRow_phys (columns : List String) (r : Row) :
    getNum (enrichRow columns r) "Phys_Score" = physVal r := by
  rw [getNum, getCell_enrichRow_phys, numOf_some_num]

lemma getNum_enrichRow_ment (columns : List String) (r : Row) :
    getNum (enrichRow columns r) "Ment_Score" = mentVal r := by
  rw [getNum, getCell_enrichRow_ment, numOf_some_num]

/-- Row-wise, the stored TPI column is the fixed weighted combination of
the stored pillar columns; summed over any row list the same relation
holds by linearity. -/
lemma sum_tpi_eq (columns : List String) (rs : List Row) :
    ((rs.map (enrichRow columns)).map (fun r => getNum r "TPI")).sum =
    0.35 * ((rs.map (enrichRow columns)).map (fun r => getNum r "Tech_Score")).sum +
    0.25 * ((rs.map (enrichRow columns)).map (fun r => getNum r "Tact_Score")).sum +
    0.25 * ((rs.map (enrichRow columns)).map (fun r => getNum r "Phys_Score")).sum +
    0.15 * ((rs.map (enrichRow columns)).map (fun r => getNum r "Ment_Score")).sum := by
  induction rs with
  | nil => norm_num
  | cons r rs ih =>
    simp only [List.map_cons, List.sum_cons, ih, getNum_enrichRow_tpi,
               getNum_enrichRow_tech, getNum_enrichRow_tact,
               getNum_enrichRow_phys, getNum_enrichRow_ment, tpiVal]
    ring

/-- C10: for every successfully processed non-empty frame, the team-average
TPI is the same weighted combination of the team-average pillar scores:
mean(TPI) = 0.35·mean(Tech) + 0.25·mean(Tact) + 0.25·mean(Phys) +
0.15·mean(Ment), by linearity of the arithmetic mean. -/
theorem c10_mean_tpi_linearity (df df' : DataFrame)
    (ta : List (String × Option ℚ))
    (h : calculate_analytics df = some (df', ta))
    (mt mta mp mm : ℚ)
    (h1 : colMean df' "Tech_Score" = some mt)
    (h2 : colMean df' "Tact_Score" = some mta)
    (h3 : colMean df' "Phys_Score" = some mp)
    (h4 : colMean df' "Ment_Score" = some mm) :
    colMean df' "TPI" = some (0.35 * mt + 0.25 * mta + 0.25 * mp + 0.15 * mm) := by
  obtain ⟨hg, hcols, hrows, hta⟩ := calculate_analytics_some df df' ta h
  have hne : ¬(df'.rows = []) := by
    intro he
    rw [colMean, if_pos he] at h1
    cases h1
  rw [colMean, if_neg hne] at h1 h2 h3 h4
  rw [colMean, if_neg hne]
  rw [Option.some.injEq] at h1 h2 h3 h4
  rw [Option.some.injEq, ← h1, ← h2, ← h3, ← h4]
  rw [hrows, sum_tpi_eq]
  ring

/-- C10 witness: on the scenario frame, mean TPI 68.525 equals the weighted
combination of the pillar means 72, 55, 76, 70.5. -/
theorem c10_witness :
    colMean scenarioDfOut "TPI" =
      some (0.35 * 72 + 0.25 * 55 + 0.25 * 76 + 0.15 * 70.5) := by
  have hm : ∀ c : String, colMean scenarioDfOut c =
      some (getNum (enrichRow scenarioDf.columns scenarioRow) c / 1) := by
    intro c
    rw [colMean, if_neg (by decide)]
    norm_num [scenarioDfOut, scenarioDf]
  have e1 : techVal scenarioRow = 72 := by
    rw [techVal, show getNum scenarioRow "pass_accuracy" = 80 from rfl,
        show getNum scenarioRow "dribble_success" = 60 from rfl]
    norm_num
  have e2 : tactVal scenarioRow = 55 := by
    rw [tactVal, show getNum scenarioRow "interceptions" = 4 from rfl,
        show getNum scenarioRow "positioning_rating" = 70 from rfl]
    norm_num
  have e3 : physVal scenarioRow = 76 := by
    rw [physVal, show getNum scenarioRow "sprint_speed" = 30 from rfl,
        show getNum scenarioRow "stamina" = 80 from rfl]
    norm_num
  have e4 : mentVal scenarioRow = 70.5 := by
    rw [mentVal, show getNum scenarioRow "composure" = 75 from rfl,
        show getNum scenarioRow "big_game_impact" = 60 from rfl]
    norm_num
  have h1 : colMean scenarioDfOut "Tech_Score" = some 72 := by
    rw [hm "Tech_Score", getNum_enrichRow_tech, e1]; norm_num
  have h2 : colMean scenarioDfOut "Tact_Score" = some 55 := by
    rw [hm "Tact_Score", getNum_enrichRow_tact, e2]; norm_num
  have h3 : colMean scenarioDfOut "Phys_Score" = some 76 := by
    rw [hm "Phys_Score", getNum_enrichRow_phys, e3]; norm_num
  have h4 : colMean scenarioDfOut "Ment_Score" = some 70.5 := by
    rw [hm "Ment_Score", getNum_enrichRow_ment, e4]; norm_num
  exact c10_mean_tpi_linearity scenarioDf scenarioDfOut scenarioTa
    (by rw [calculate_analytics, if_pos (by decide)]; rfl)
    72 55 76 70.5 h1 h2 h3 h4

end RPL
